import Mathlib

/-!
Verification development for the classroom-assignment repository.

The repository has two source programs:

* `solve_or_tools.py` — loads a student CSV, normalizes flag columns
  (`'yes'` ↦ 1, blank ↦ 0) and relation columns (blank ↦ -1), fixes six
  classes whose sizes are 34 for two ambient-randomly drawn classes and 33
  for the rest, builds a CP-SAT model (integer variable `student_class`
  per student with domain 0..5, boolean indicators `assign[s][c]`, an
  exactly-one constraint per student, half-reified links
  `student_class == c` enforced-if `assign[s][c]`, exact capacity sums,
  bad-relation disequalities, truant good-relation equalities, leader
  bounds 1..5 per class, floor/ceil balance ranges for piano/truant/
  athletic/gender/club features, truncated-integer score-sum ranges, and
  a per-class upper bound of 7 on prior-year class overlap), and solves.

* `main.py` — generates ambient-random data for 50 students and 10
  classrooms, builds a `python-constraint` problem whose only posted
  constraints are a per-class student-count range, disequalities for
  disliked pairs, and subject-preference matching; a score-sum constraint
  function is defined but never posted.  After solving it re-checks only
  the dislike and the preference constraints and reports violations as
  printed warnings.

Both models are embedded shallowly below: the constraint set produced by
each builder is a list of first-order constraint descriptors, and a
solver-returned solution is any valuation of the declared variables that
satisfies every posted constraint (which is exactly the contract of both
engines).  Python floats in the score bounds are modelled by exact
rational arithmetic; Python `int()` truncation is `pyInt`.
-/

set_option maxRecDepth 100000

namespace Classroom

/-- One row of the CSV after the column renaming of `solve_or_tools.py`
(lines 17-28).  Flag columns are kept raw (`Option String`, the CSV cell)
and relation columns raw (`Option Int`, `none` for a blank/non-numeric
cell), so that the normalization of lines 32-37 is part of the model. -/
structure Student where
  id : Int
  score : Int
  gender : String
  lastYearClass : Option Int
  club : Option String
  goodRelationRaw : Option Int
  badRelationRaw : Option Int
  isLeaderRaw : Option String
  playsPianoRaw : Option String
  isTruantRaw : Option String
  isAthleticRaw : Option String
  deriving DecidableEq, Repr

/-- Lines 32-33: `1 if x == 'yes' else 0` for the four flag columns. -/
def flagVal (x : Option String) : Nat :=
  if x = some "yes" then 1 else 0

/-- Lines 36-37: `pd.to_numeric(...).fillna(-1)` — a blank or
non-numeric relation cell becomes `-1`. -/
def relVal (x : Option Int) : Int :=
  x.getD (-1)

/-- Line 39: `NUM_CLASSES = 6`. -/
def numClasses : Nat := 6

/-- Line 43: `CLASS_IDS = list(range(NUM_CLASSES))`. -/
def classIds : List Nat := List.range numClasses

/-- Lines 45-51: `CLASS_SIZES` as a function of the ambient-random draw
`large_CLASS_IDS = random.sample(CLASS_IDS, 2)`, which we pass explicitly
because the source exposes no seed parameter for it. -/
def classSizes (largeClassIds : List Nat) (c : Nat) : Nat :=
  if c ∈ largeClassIds then 34 else 33

/-- Python `int()` truncation toward zero on an exact rational. -/
def pyInt (q : ℚ) : Int :=
  if 0 ≤ q then ⌊q⌋ else ⌈q⌉

/-- Python `math.ceil(n / k)` for natural `n`, positive natural `k`. -/
def ceilDiv (n k : Nat) : Nat := (n + k - 1) / k

/-- A constraint descriptor: one constructor per kind of constraint the
builder posts to the CP-SAT model (plus `domainC` recording the declared
domain 0..5 of each `NewIntVar` from line 58). -/
inductive Constr where
  /-- Domain of `student_class[s]` declared by `NewIntVar(0, 5, ...)`. -/
  | domainC (s : Int)
  /-- Line 63: `AddExactlyOne([assign[s][c] for c in CLASS_IDS])`. -/
  | exactlyOne (s : Int)
  /-- Line 65: `Add(student_class[s] == c).OnlyEnforceIf(assign[s][c])`. -/
  | link (s : Int) (c : Nat)
  /-- Line 68: `Add(sum(assign[s][c] for s in STUDENT_IDS) == size)`. -/
  | capacityEq (ids : List Int) (c : Nat) (size : Nat)
  /-- Line 76: `Add(student_class[s1] != student_class[s2])`. -/
  | neqC (s1 s2 : Int)
  /-- Line 84: `Add(student_class[s1] == student_class[s2])`. -/
  | eqC (s1 s2 : Int)
  /-- Line 90: lower bound on an indicator count over `ids` in class `c`. -/
  | countGe (ids : List Int) (c : Nat) (lo : Nat)
  /-- Lines 91 and 123: upper bound on an indicator count. -/
  | countLe (ids : List Int) (c : Nat) (hi : Nat)
  /-- Lines 100, 107, 132: `AddLinearConstraint(count, lo, hi)`. -/
  | countRange (ids : List Int) (c : Nat) (lo hi : Nat)
  /-- Line 115: `AddLinearConstraint(class_total_score, lo, hi)`; the
  weights pair each student id with its looked-up score. -/
  | scoreRange (wts : List (Int × Int)) (c : Nat) (lo hi : Int)
  deriving DecidableEq, Repr

/-- A valuation of the model variables: the integer `student_class`
value and the boolean `assign` indicators, both keyed by student id. -/
structure Sol where
  cls : Int → Nat
  ind : Int → Nat → Bool

/-- Number of students among `ids` whose indicator for class `c` is set. -/
def indCount (sol : Sol) (ids : List Int) (c : Nat) : Nat :=
  ids.countP (fun s => sol.ind s c)

/-- Weighted score sum of line 114: `sum(assign[s][c] * score_of_s)`. -/
def weightedSum (sol : Sol) (wts : List (Int × Int)) (c : Nat) : Int :=
  (wts.map (fun p => if sol.ind p.1 c then p.2 else 0)).sum

/-- Truth of one constraint descriptor under a valuation; this is the
satisfaction contract the CP-SAT solver guarantees for every constraint
it was given. -/
def holds (sol : Sol) : Constr → Bool
  | .domainC s => sol.cls s < numClasses
  | .exactlyOne s => classIds.countP (fun c => sol.ind s c) == 1
  | .link s c => !sol.ind s c || (sol.cls s == c)
  | .capacityEq ids c size => indCount sol ids c == size
  | .neqC s1 s2 => sol.cls s1 != sol.cls s2
  | .eqC s1 s2 => sol.cls s1 == sol.cls s2
  | .countGe ids c lo => decide (lo ≤ indCount sol ids c)
  | .countLe ids c hi => decide (indCount sol ids c ≤ hi)
  | .countRange ids c lo hi =>
      decide (lo ≤ indCount sol ids c) && decide (indCount sol ids c ≤ hi)
  | .scoreRange wts c lo hi =>
      decide (lo ≤ weightedSum sol wts c) && decide (weightedSum sol wts c ≤ hi)

/-- Line 40: `STUDENT_IDS = df['id'].tolist()`. -/
def studentIds (students : List Student) : List Int :=
  students.map (·.id)

/-- Line 114: `df.loc[df['id'] == student_id, 'score'].iloc[0]` — the
score of the first row with the given id (every id passed comes from the
dataframe, so the `0` default is never reached on the builder's calls). -/
def scoreOf (students : List Student) (sid : Int) : Int :=
  match students.find? (fun st => st.id = sid) with
  | some st => st.score
  | none => 0

/-- First-occurrence deduplication, as pandas `Series.unique()`. -/
def uniqueAux [DecidableEq α] : List α → List α → List α
  | [], acc => acc.reverse
  | a :: l, acc => if a ∈ acc then uniqueAux l acc else uniqueAux l (a :: acc)

/-- Pandas `dropna().unique()` over a column of optional values. -/
def uniqueVals [DecidableEq α] (l : List (Option α)) : List α :=
  uniqueAux (l.filterMap id) []

/-- Line 58: the integer variable of each student is declared with
domain `0..NUM_CLASSES-1`; every returned solution respects it. -/
def domainSection (ids : List Int) : List Constr :=
  ids.map Constr.domainC

/-- Lines 62-65: the exactly-one constraint and the six half-reified
links, per student, in source order. -/
def assignSection (ids : List Int) : List Constr :=
  ids.flatMap (fun s => Constr.exactlyOne s :: classIds.map (Constr.link s))

/-- Lines 67-68: one exact capacity equality per class. -/
def capacitySection (ids : List Int) (largeClassIds : List Nat) : List Constr :=
  classIds.map (fun c => Constr.capacityEq ids c (classSizes largeClassIds c))

/-- Lines 73-76: for every row with `bad_relation != -1` whose target id
is a key of `student_class`, a disequality. -/
def badSection (students : List Student) : List Constr :=
  (students.filter (fun st => relVal st.badRelationRaw ≠ -1)).filterMap
    (fun st =>
      if relVal st.badRelationRaw ∈ studentIds students then
        some (Constr.neqC st.id (relVal st.badRelationRaw))
      else none)

/-- Lines 79-84: for every truant row with `good_relation != -1` whose
target id is a key of `student_class`, an equality. -/
def goodSection (students : List Student) : List Constr :=
  ((students.filter (fun st => flagVal st.isTruantRaw = 1)).filter
      (fun st => relVal st.goodRelationRaw ≠ -1)).filterMap
    (fun st =>
      if relVal st.goodRelationRaw ∈ studentIds students then
        some (Constr.eqC st.id (relVal st.goodRelationRaw))
      else none)

/-- Line 87: ids of the rows with `is_leader == 1`. -/
def leaderIds (students : List Student) : List Int :=
  (students.filter (fun st => flagVal st.isLeaderRaw = 1)).map (·.id)

/-- Line 88: `max_leaders_per_class = 5`. -/
def maxLeadersPerClass : Nat := 5

/-- Lines 89-91: per class, at least 1 and at most 5 leaders. -/
def leaderSection (students : List Student) : List Constr :=
  classIds.flatMap (fun c =>
    [Constr.countGe (leaderIds students) c 1,
     Constr.countLe (leaderIds students) c maxLeadersPerClass])

/-- Lines 94-100 for one feature: the floor/ceil balance range per class
over the ids possessing the feature. -/
def rangeSection (fids : List Int) : List Constr :=
  classIds.map (fun c =>
    Constr.countRange fids c (fids.length / numClasses)
      (ceilDiv fids.length numClasses))

/-- Line 95 for a given flag column. -/
def featureIds (students : List Student) (flag : Student → Option String) :
    List Int :=
  (students.filter (fun st => flagVal (flag st) = 1)).map (·.id)

/-- Line 103: `male_ids = df[df['gender'] == 'boy']['id'].tolist()`. -/
def maleIds (students : List Student) : List Int :=
  (students.filter (fun st => st.gender = "boy")).map (·.id)

/-- Line 110: `total_score = df['score'].sum()`. -/
def totalScore (students : List Student) : Int :=
  (students.map (·.score)).sum

/-- Line 111: `avg_score_per_class = total_score / NUM_CLASSES` as an
exact rational. -/
def avgScorePerClass (students : List Student) : ℚ :=
  (totalScore students : ℚ) / (numClasses : ℚ)

/-- Line 112: `tolerance = avg_score_per_class * 0.05`. -/
def scoreTolerance (students : List Student) : ℚ :=
  avgScorePerClass students * (5 / 100)

/-- Line 115 lower bound `int(avg_score_per_class - tolerance)`. -/
def scoreLo (students : List Student) : Int :=
  pyInt (avgScorePerClass students - scoreTolerance students)

/-- Line 115 upper bound `int(avg_score_per_class + tolerance)`. -/
def scoreHi (students : List Student) : Int :=
  pyInt (avgScorePerClass students + scoreTolerance students)

/-- Line 114 weights: each student id of the dataframe paired with its
looked-up score. -/
def scoreWeights (students : List Student) : List (Int × Int) :=
  (studentIds students).map (fun sid => (sid, scoreOf students sid))

/-- Lines 109-115: one score-sum range per class. -/
def scoreSection (students : List Student) : List Constr :=
  classIds.map (fun c =>
    Constr.scoreRange (scoreWeights students) c (scoreLo students)
      (scoreHi students))

/-- Line 119: `max_overlap = 7`. -/
def maxOverlap : Nat := 7

/-- Lines 117-123: for every distinct prior-year class value, an upper
bound of 7 members per new class (no lower bound). -/
def lastYearSection (students : List Student) : List Constr :=
  (uniqueVals (students.map (·.lastYearClass))).flatMap (fun v =>
    classIds.map (fun c =>
      Constr.countLe
        ((students.filter (fun st => st.lastYearClass = some v)).map (·.id))
        c maxOverlap))

/-- Lines 125-132: for every distinct club value, a floor/ceil balance
range per class over its members. -/
def clubSection (students : List Student) : List Constr :=
  (uniqueVals (students.map (·.club))).flatMap (fun v =>
    rangeSection ((students.filter (fun st => st.club = some v)).map (·.id)))

/-- The full constraint model of `solve_classroom_assignment_from_csv`
(lines 54-132), in source order, parameterized by the normalized student
rows and the ambient-random draw of the two size-34 classes. -/
def buildConstraints (students : List Student) (largeClassIds : List Nat) :
    List Constr :=
  domainSection (studentIds students) ++
  assignSection (studentIds students) ++
  capacitySection (studentIds students) largeClassIds ++
  badSection students ++
  goodSection students ++
  leaderSection students ++
  rangeSection (featureIds students (·.playsPianoRaw)) ++
  rangeSection (featureIds students (·.isTruantRaw)) ++
  rangeSection (featureIds students (·.isAthleticRaw)) ++
  rangeSection (maleIds students) ++
  scoreSection students ++
  lastYearSection students ++
  clubSection students

/-- A solver-returned solution: a valuation satisfying every posted
constraint (the CP-SAT contract for an OPTIMAL or FEASIBLE status). -/
def solves (students : List Student) (largeClassIds : List Nat) (sol : Sol) :
    Bool :=
  (buildConstraints students largeClassIds).all (holds sol)

/-- A concrete normalized input of 200 students: all score 100, all
boys, one leader per eventual class, student 0 with a bad relation to
student 34, truant student 1 with a good relation to student 2, and
non-truant student 2 with a good relation to student 35. -/
def mkStudent (i : Nat) : Student where
  id := i
  score := 100
  gender := "boy"
  lastYearClass := none
  club := none
  goodRelationRaw := if i = 1 then some 2 else if i = 2 then some 35 else none
  badRelationRaw := if i = 0 then some 34 else none
  isLeaderRaw :=
    if i = 0 ∨ i = 34 ∨ i = 68 ∨ i = 101 ∨ i = 134 ∨ i = 167 then some "yes"
    else none
  playsPianoRaw := none
  isTruantRaw := if i = 1 then some "yes" else none
  isAthleticRaw := none

/-- The concrete 200-row dataframe. -/
def exInput : List Student := (List.range 200).map mkStudent

/-- A concrete class valuation: classes 0 and 1 take 34 consecutive ids,
classes 2..5 take 33. -/
def exCls (s : Int) : Nat :=
  if s < 34 then 0 else if s < 68 then 1 else if s < 101 then 2
  else if s < 134 then 3 else if s < 167 then 4 else 5

/-- The concrete solver valuation built from `exCls`. -/
def exSol : Sol where
  cls := exCls
  ind := fun s c => exCls s == c

/-- Count of students among `ids` whose integer assignment equals `c`. -/
def clsCount (sol : Sol) (ids : List Int) (c : Nat) : Nat :=
  ids.countP (fun s => sol.cls s == c)

/-- Shape of the ambient draw `random.sample(CLASS_IDS, 2)`: two
distinct class ids. -/
def validPair (large : List Nat) : Prop :=
  large.length = 2 ∧ large.Nodup ∧ ∀ c ∈ large, c < numClasses

instance : DecidablePred validPair := fun large =>
  inferInstanceAs (Decidable (_ ∧ _ ∧ _))

/-- A three-row input with no relations, used to exercise the missing
capacity-mismatch check. -/
def plainStudent (i : Nat) : Student :=
  ⟨i, 100, "boy", none, none, none, none, none, none, none, none⟩

def exInput9 : List Student :=
  [plainStudent 0, plainStudent 1, plainStudent 2]

/-- Score sum of the students assigned to class `c` by the integer
variables (line 114's weighted sum, read through the assignment). -/
def clsScoreSum (students : List Student) (sol : Sol) (c : Nat) : Int :=
  ((studentIds students).map
    (fun s => if sol.cls s == c then scoreOf students s else 0)).sum

/-- Discriminator for the capacity constraints of lines 67-68, the only
constraints that depend on the ambient random draw. -/
def isCapacityC : Constr → Bool
  | .capacityEq _ _ _ => true
  | _ => false

end Classroom

namespace MainProg

/-- Line 6 of `main.py`: `NUM_STUDENTS = 50`. -/
def numStudents : Nat := 50

/-- Line 7: `NUM_CLASSROOMS = 10`. -/
def numClassrooms : Nat := 10

/-- Line 23: the ten subjects. -/
def subjects : List String :=
  ["Math", "Science", "Literature", "History", "Art", "Music", "PE", "IT",
   "ForeignLanguage", "Economics"]

/-- Lines 34-35: with ten classrooms and ten subjects, classroom `i` is
taught subject `i`. -/
def classroomTeacherSubject (c : Nat) : String := subjects.getD c ""

/-- The ambient-random data of lines 11-24, passed explicitly: scores,
dislike pairs and subject preferences. -/
structure MainData where
  scores : Nat → Nat
  dislikes : List (Nat × Nat)
  prefs : Nat → String

/-- Lines 113-116: `NUM_STUDENTS // NUM_CLASSROOMS - 2`, floored at 1. -/
def minStudentsPerClass : Nat :=
  let m := numStudents / numClassrooms - 2
  if m < 1 then 1 else m

/-- Line 114: `NUM_STUDENTS // NUM_CLASSROOMS + 2`. -/
def maxStudentsPerClass : Nat := numStudents / numClassrooms + 2

/-- Number of students a valuation assigns to classroom `c`. -/
def classCount (cls : Nat → Nat) (c : Nat) : Nat :=
  (List.range numStudents).countP (fun s => cls s == c)

/-- A `problem.getSolutions()` element: a valuation within the declared
domains satisfying the three posted constraint families (lines 46-47,
119-122, 124-127, 132-135).  The score-sum constraint of lines 89-99 is
defined in the source but never posted, so it does not appear here. -/
def mainSolves (d : MainData) (cls : Nat → Nat) : Bool :=
  ((List.range numStudents).all fun s => cls s < numClassrooms) &&
  ((List.range numClassrooms).all fun c =>
    decide (minStudentsPerClass ≤ classCount cls c) &&
      decide (classCount cls c ≤ maxStudentsPerClass)) &&
  (d.dislikes.all fun p => cls p.1 != cls p.2) &&
  ((List.range numStudents).all fun s =>
    classroomTeacherSubject (cls s) == d.prefs s)

/-- Line 73: `total_score = sum(student_scores.values())`. -/
def totalScoreMain (d : MainData) : Nat :=
  ((List.range numStudents).map d.scores).sum

/-- Line 74: `ideal_classroom_score_sum = total_score / NUM_CLASSROOMS`. -/
def idealClassroomScoreSum (d : MainData) : ℚ :=
  (totalScoreMain d : ℚ) / (numClassrooms : ℚ)

/-- Line 76: `SCORE_TOLERANCE_PERCENT = 0.15`. -/
def scoreTolerancePercent : ℚ := 15 / 100

/-- Sum of the scores of the students assigned to classroom `c`. -/
def classScoreSum (d : MainData) (cls : Nat → Nat) (c : Nat) : Nat :=
  ((List.range numStudents).map
    (fun s => if cls s == c then d.scores s else 0)).sum

/-- A concrete valuation: students 0-2 in classroom 0, the remaining 47
students spread over classrooms 1-9 (six or five each). -/
def exMainCls (s : Nat) : Nat :=
  if s < 3 then 0 else (s - 3) % 9 + 1

/-- Concrete ambient data: the three students of classroom 0 score 50,
everyone else 100, no dislikes, and every student prefers the subject of
the classroom `exMainCls` gives them. -/
def exMain : MainData where
  scores := fun s => if s < 3 then 50 else 100
  dislikes := []
  prefs := fun s => classroomTeacherSubject (exMainCls s)

/-- Lines 176-178 group the returned assignment per classroom; each
classroom's student list, in id order. -/
def studentsInClass (cls : Nat → Nat) (c : Nat) : List Nat :=
  (List.range numStudents).filter (fun s => cls s == c)

/-- All index-ordered pairs of a list, as produced by the double loop of
lines 191-192. -/
def allPairs {α : Type} : List α → List (α × α)
  | [] => []
  | a :: l => (l.map (fun b => (a, b))) ++ allPairs l

/-- Lines 190-195: the dislike re-check — for each classroom, each
in-class pair found in `student_dislikes` in either order yields one
printed warning, here recorded as `(classroom, s1, s2)`. -/
def dislikeWarnings (d : MainData) (cls : Nat → Nat) :
    List (Nat × Nat × Nat) :=
  (List.range numClassrooms).flatMap (fun c =>
    (allPairs (studentsInClass cls c)).filterMap (fun p =>
      if p ∈ d.dislikes ∨ (p.2, p.1) ∈ d.dislikes then some (c, p.1, p.2)
      else none))

/-- Lines 197-200: the preference re-check — each student whose
preferred subject differs from their classroom's subject yields one
printed warning, recorded as `(classroom, student)`. -/
def prefWarnings (d : MainData) (cls : Nat → Nat) : List (Nat × Nat) :=
  (List.range numClassrooms).flatMap (fun c =>
    (studentsInClass cls c).filterMap (fun s =>
      if classroomTeacherSubject c ≠ d.prefs s then some (c, s) else none))

/-- Data for the C8 counterexample: everyone prefers Math. -/
def exD8 : MainData where
  scores := fun _ => 100
  dislikes := []
  prefs := fun _ => "Math"

/-- A valuation putting all 50 students in classroom 0. -/
def exCls8 : Nat → Nat := fun _ => 0

/-- Data for the C8 witness: one dislike pair `(0, 1)` and preferences
matching a round-robin assignment. -/
def exD8b : MainData where
  scores := fun _ => 100
  dislikes := [(0, 1)]
  prefs := fun s => classroomTeacherSubject (s % 10)

/-- The round-robin valuation `s ↦ s % 10`. -/
def exCls8b : Nat → Nat := fun s => s % 10

end MainProg

namespace Classroom

/-- Rewriting the lower score bound of line 115 into integer division,
for a nonnegative total score:
`int(total/6 - total/6*0.05) = floor(19*total/120)`. -/
theorem scoreLo_eq (students : List Student) (h : 0 ≤ totalScore students) :
    scoreLo students = 19 * totalScore students / (120 : ℕ) := by
  have hq : avgScorePerClass students - scoreTolerance students
      = ((19 * totalScore students : ℤ) : ℚ) / ((120 : ℕ) : ℚ) := by
    rw [scoreTolerance, avgScorePerClass, numClasses]
    push_cast
    ring
  have hpos : (0 : ℚ) ≤ avgScorePerClass students - scoreTolerance students := by
    rw [hq]
    apply div_nonneg
    · exact_mod_cast by linarith
    · norm_num
  rw [scoreLo, pyInt, if_pos hpos, hq, Rat.floor_intCast_div_natCast]

/-- Rewriting the upper score bound of line 115 into integer division,
for a nonnegative total score:
`int(total/6 + total/6*0.05) = floor(21*total/120)`. -/
theorem scoreHi_eq (students : List Student) (h : 0 ≤ totalScore students) :
    scoreHi students = 21 * totalScore students / (120 : ℕ) := by
  have hq : avgScorePerClass students + scoreTolerance students
      = ((21 * totalScore students : ℤ) : ℚ) / ((120 : ℕ) : ℚ) := by
    rw [scoreTolerance, avgScorePerClass, numClasses]
    push_cast
    ring
  have hpos : (0 : ℚ) ≤ avgScorePerClass students + scoreTolerance students := by
    rw [hq]
    apply div_nonneg
    · exact_mod_cast by linarith
    · norm_num
  rw [scoreHi, pyInt, if_pos hpos, hq, Rat.floor_intCast_div_natCast]

theorem exScoreLo : scoreLo exInput = 3166 := by
  rw [scoreLo_eq exInput (by decide)]
  decide

theorem exScoreHi : scoreHi exInput = 3500 := by
  rw [scoreHi_eq exInput (by decide)]
  decide

theorem exAllScore : (scoreSection exInput).all (holds exSol) = true := by
  rw [scoreSection, exScoreLo, exScoreHi]
  decide

/-- The concrete valuation `exSol` satisfies every constraint the
builder posts for `exInput` with classes 0 and 1 drawn as the two
size-34 classes: it is a solver-returnable solution. -/
theorem exSolves : solves exInput [0, 1] exSol = true := by
  rw [solves, buildConstraints]
  simp only [List.all_append, exAllScore, Bool.and_true, Bool.and_eq_true]
  refine ⟨⟨⟨⟨⟨⟨⟨⟨⟨⟨⟨?_, ?_⟩, ?_⟩, ?_⟩, ?_⟩, ?_⟩, ?_⟩, ?_⟩, ?_⟩, ?_⟩, ?_⟩, ?_⟩ <;>
    decide

/-- Every posted constraint is satisfied by a returned solution. -/
theorem solves_holds {students : List Student} {large : List Nat} {sol : Sol}
    (h : solves students large sol = true) {con : Constr}
    (hc : con ∈ buildConstraints students large) : holds sol con = true :=
  List.all_eq_true.mp h con hc

theorem domainC_mem (large : List Nat) {students : List Student} {s : Int}
    (hs : s ∈ studentIds students) :
    Constr.domainC s ∈ buildConstraints students large := by
  rw [buildConstraints]
  simp only [List.mem_append]
  exact Or.inl (Or.inl (Or.inl (Or.inl (Or.inl (Or.inl (Or.inl (Or.inl (Or.inl
    (Or.inl (Or.inl (Or.inl (List.mem_map_of_mem Constr.domainC hs))))))))))))

theorem exactlyOne_mem (large : List Nat) {students : List Student} {s : Int}
    (hs : s ∈ studentIds students) :
    Constr.exactlyOne s ∈ buildConstraints students large := by
  rw [buildConstraints]
  simp only [List.mem_append]
  exact Or.inl (Or.inl (Or.inl (Or.inl (Or.inl (Or.inl (Or.inl (Or.inl (Or.inl
    (Or.inl (Or.inl (Or.inr (List.mem_flatMap.mpr
      ⟨s, hs, List.mem_cons_self _ _⟩))))))))))))

theorem link_mem (large : List Nat) {students : List Student} {s : Int}
    (hs : s ∈ studentIds students) {c : Nat} (hc : c ∈ classIds) :
    Constr.link s c ∈ buildConstraints students large := by
  rw [buildConstraints]
  simp only [List.mem_append]
  exact Or.inl (Or.inl (Or.inl (Or.inl (Or.inl (Or.inl (Or.inl (Or.inl (Or.inl
    (Or.inl (Or.inl (Or.inr (List.mem_flatMap.mpr
      ⟨s, hs, List.mem_cons_of_mem _ (List.mem_map_of_mem _ hc)⟩))))))))))))

theorem capacity_mem (students : List Student) (large : List Nat) {c : Nat}
    (hc : c ∈ classIds) :
    Constr.capacityEq (studentIds students) c (classSizes large c) ∈
      buildConstraints students large := by
  rw [buildConstraints]
  simp only [List.mem_append]
  exact Or.inl (Or.inl (Or.inl (Or.inl (Or.inl (Or.inl (Or.inl (Or.inl (Or.inl
    (Or.inl (Or.inr (List.mem_map_of_mem _ hc)))))))))))

theorem bad_mem (large : List Nat) {students : List Student} {st : Student}
    (hst : st ∈ students) (hbad : relVal st.badRelationRaw ≠ -1)
    (hres : relVal st.badRelationRaw ∈ studentIds students) :
    Constr.neqC st.id (relVal st.badRelationRaw) ∈
      buildConstraints students large := by
  rw [buildConstraints]
  simp only [List.mem_append]
  refine Or.inl (Or.inl (Or.inl (Or.inl (Or.inl (Or.inl (Or.inl (Or.inl (Or.inl
    (Or.inr ?_)))))))))
  rw [badSection]
  exact List.mem_filterMap.mpr
    ⟨st, List.mem_filter.mpr ⟨hst, by simpa using hbad⟩, by rw [if_pos hres]⟩

theorem good_mem (large : List Nat) {students : List Student} {st : Student}
    (hst : st ∈ students) (htru : flagVal st.isTruantRaw = 1)
    (hgood : relVal st.goodRelationRaw ≠ -1)
    (hres : relVal st.goodRelationRaw ∈ studentIds students) :
    Constr.eqC st.id (relVal st.goodRelationRaw) ∈
      buildConstraints students large := by
  rw [buildConstraints]
  simp only [List.mem_append]
  refine Or.inl (Or.inl (Or.inl (Or.inl (Or.inl (Or.inl (Or.inl (Or.inl
    (Or.inr ?_))))))))
  rw [goodSection]
  refine List.mem_filterMap.mpr ⟨st, ?_, by rw [if_pos hres]⟩
  exact List.mem_filter.mpr
    ⟨List.mem_filter.mpr ⟨hst, by simpa using htru⟩, by simpa using hgood⟩

theorem leaderGe_mem (students : List Student) (large : List Nat) {c : Nat}
    (hc : c ∈ classIds) :
    Constr.countGe (leaderIds students) c 1 ∈ buildConstraints students large := by
  rw [buildConstraints]
  simp only [List.mem_append]
  refine Or.inl (Or.inl (Or.inl (Or.inl (Or.inl (Or.inl (Or.inl
    (Or.inr ?_)))))))
  rw [leaderSection]
  exact List.mem_flatMap.mpr ⟨c, hc, by simp⟩

theorem leaderLe_mem (students : List Student) (large : List Nat) {c : Nat}
    (hc : c ∈ classIds) :
    Constr.countLe (leaderIds students) c maxLeadersPerClass ∈
      buildConstraints students large := by
  rw [buildConstraints]
  simp only [List.mem_append]
  refine Or.inl (Or.inl (Or.inl (Or.inl (Or.inl (Or.inl (Or.inl
    (Or.inr ?_)))))))
  rw [leaderSection]
  exact List.mem_flatMap.mpr ⟨c, hc, by simp⟩

theorem piano_mem (students : List Student) (large : List Nat) {c : Nat}
    (hc : c ∈ classIds) :
    Constr.countRange (featureIds students (·.playsPianoRaw)) c
      ((featureIds students (·.playsPianoRaw)).length / numClasses)
      (ceilDiv (featureIds students (·.playsPianoRaw)).length numClasses) ∈
      buildConstraints students large := by
  rw [buildConstraints]
  simp only [List.mem_append]
  exact Or.inl (Or.inl (Or.inl (Or.inl (Or.inl (Or.inl
    (Or.inr (List.mem_map_of_mem _ hc)))))))

theorem truant_mem (students : List Student) (large : List Nat) {c : Nat}
    (hc : c ∈ classIds) :
    Constr.countRange (featureIds students (·.isTruantRaw)) c
      ((featureIds students (·.isTruantRaw)).length / numClasses)
      (ceilDiv (featureIds students (·.isTruantRaw)).length numClasses) ∈
      buildConstraints students large := by
  rw [buildConstraints]
  simp only [List.mem_append]
  exact Or.inl (Or.inl (Or.inl (Or.inl (Or.inl
    (Or.inr (List.mem_map_of_mem _ hc))))))

theorem athletic_mem (students : List Student) (large : List Nat) {c : Nat}
    (hc : c ∈ classIds) :
    Constr.countRange (featureIds students (·.isAthleticRaw)) c
      ((featureIds students (·.isAthleticRaw)).length / numClasses)
      (ceilDiv (featureIds students (·.isAthleticRaw)).length numClasses) ∈
      buildConstraints students large := by
  rw [buildConstraints]
  simp only [List.mem_append]
  exact Or.inl (Or.inl (Or.inl (Or.inl
    (Or.inr (List.mem_map_of_mem _ hc)))))

theorem male_mem (students : List Student) (large : List Nat) {c : Nat}
    (hc : c ∈ classIds) :
    Constr.countRange (maleIds students) c
      ((maleIds students).length / numClasses)
      (ceilDiv (maleIds students).length numClasses) ∈
      buildConstraints students large := by
  rw [buildConstraints]
  simp only [List.mem_append]
  exact Or.inl (Or.inl (Or.inl (Or.inr (List.mem_map_of_mem _ hc))))

theorem score_mem (students : List Student) (large : List Nat) {c : Nat}
    (hc : c ∈ classIds) :
    Constr.scoreRange (scoreWeights students) c (scoreLo students)
      (scoreHi students) ∈ buildConstraints students large := by
  rw [buildConstraints]
  simp only [List.mem_append]
  exact Or.inl (Or.inl (Or.inr (List.mem_map_of_mem _ hc)))

theorem lastYear_mem (students : List Student) (large : List Nat) {v : Int}
    (hv : v ∈ uniqueVals (students.map (·.lastYearClass))) {c : Nat}
    (hc : c ∈ classIds) :
    Constr.countLe
      ((students.filter (fun st => st.lastYearClass = some v)).map (·.id)) c
      maxOverlap ∈ buildConstraints students large := by
  rw [buildConstraints]
  simp only [List.mem_append]
  refine Or.inl (Or.inr ?_)
  rw [lastYearSection]
  exact List.mem_flatMap.mpr ⟨v, hv, List.mem_map_of_mem _ hc⟩

theorem club_mem (students : List Student) (large : List Nat) {v : String}
    (hv : v ∈ uniqueVals (students.map (·.club))) {c : Nat}
    (hc : c ∈ classIds) :
    Constr.countRange
      ((students.filter (fun st => st.club = some v)).map (·.id)) c
      (((students.filter (fun st => st.club = some v)).map (·.id)).length /
        numClasses)
      (ceilDiv
        (((students.filter (fun st => st.club = some v)).map (·.id)).length)
        numClasses) ∈ buildConstraints students large := by
  rw [buildConstraints]
  simp only [List.mem_append]
  refine Or.inr ?_
  rw [clubSection]
  exact List.mem_flatMap.mpr ⟨v, hv, List.mem_map_of_mem _ hc⟩

/-- Domain extraction: a returned integer value lies in `0..5`. -/
theorem cls_lt_numClasses {students : List Student} {large : List Nat}
    {sol : Sol} (h : solves students large sol = true) {s : Int}
    (hs : s ∈ studentIds students) : sol.cls s < numClasses := by
  have hh := solves_holds h (domainC_mem large hs)
  simpa [holds] using hh

/-- Exactly-one extraction: exactly one indicator of a student is true. -/
theorem exactlyOne_count {students : List Student} {large : List Nat}
    {sol : Sol} (h : solves students large sol = true) {s : Int}
    (hs : s ∈ studentIds students) :
    classIds.countP (fun c => sol.ind s c) = 1 := by
  have hh := solves_holds h (exactlyOne_mem large hs)
  simpa [holds] using hh

/-- Link extraction: a set indicator forces the integer value. -/
theorem link_imp {students : List Student} {large : List Nat} {sol : Sol}
    (h : solves students large sol = true) {s : Int}
    (hs : s ∈ studentIds students) {c : Nat} (hc : c ∈ classIds)
    (hi : sol.ind s c = true) : sol.cls s = c := by
  have hh := solves_holds h (link_mem large hs hc)
  simpa [holds, hi] using hh

/-- Conversely, the integer value forces the matching indicator, because
exactly one indicator is true and it is linked to the integer value. -/
theorem cls_imp_ind {students : List Student} {large : List Nat} {sol : Sol}
    (h : solves students large sol = true) {s : Int}
    (hs : s ∈ studentIds students) {c : Nat} (hc : c ∈ classIds)
    (he : sol.cls s = c) : sol.ind s c = true := by
  have h1 := exactlyOne_count h hs
  have hpos : 0 < classIds.countP (fun c => sol.ind s c) := by omega
  obtain ⟨c2, hc2, hi2⟩ := List.countP_pos_iff.mp hpos
  have h2 := link_imp h hs hc2 hi2
  rw [he] at h2
  rw [h2]
  exact hi2

/-- The indicator for `(s, c)` is true iff the integer value is `c`. -/
theorem ind_iff_cls {students : List Student} {large : List Nat} {sol : Sol}
    (h : solves students large sol = true) {s : Int}
    (hs : s ∈ studentIds students) {c : Nat} (hc : c ∈ classIds) :
    sol.ind s c = true ↔ sol.cls s = c :=
  ⟨link_imp h hs hc, cls_imp_ind h hs hc⟩

/-- Boolean form of `ind_iff_cls`. -/
theorem ind_eq_clsBeq {students : List Student} {large : List Nat} {sol : Sol}
    (h : solves students large sol = true) {s : Int}
    (hs : s ∈ studentIds students) {c : Nat} (hc : c ∈ classIds) :
    sol.ind s c = (sol.cls s == c) := by
  rw [Bool.eq_iff_iff, beq_iff_eq]
  exact ind_iff_cls h hs hc

/-- Indicator counts agree with integer-value counts on any id list
drawn from the dataframe. -/
theorem indCount_eq_clsCount {students : List Student} {large : List Nat}
    {sol : Sol} (h : solves students large sol = true) {ids0 : List Int}
    (hsub : ∀ s ∈ ids0, s ∈ studentIds students) {c : Nat}
    (hc : c ∈ classIds) : indCount sol ids0 c = clsCount sol ids0 c :=
  List.countP_congr (fun s hs => by
    rw [ind_eq_clsBeq h (hsub s hs) hc])

/-- C1: in every solution returned by the solver, every student is
assigned exactly one classroom — the integer assignment variable takes a
single classroom id from the domain `0..5`, exactly one boolean
indicator among the student's six `(student, classroom)` indicators is
true, and the indicator for classroom `c` is true iff the student's
integer variable equals `c`. -/
theorem C1_exactly_one_assignment (students : List Student)
    (large : List Nat) (sol : Sol) (h : solves students large sol = true)
    (st : Student) (hst : st ∈ students) :
    sol.cls st.id < numClasses ∧
    classIds.countP (fun c => sol.ind st.id c) = 1 ∧
    ∀ c ∈ classIds, (sol.ind st.id c = true ↔ sol.cls st.id = c) := by
  have hs : st.id ∈ studentIds students := List.mem_map_of_mem _ hst
  exact ⟨cls_lt_numClasses h hs, exactlyOne_count h hs,
    fun c hc => ind_iff_cls h hs hc⟩

/-- Witness for C1 at the concrete 200-student instance and solution. -/
theorem C1_witness :
    exSol.cls 0 < numClasses ∧
    classIds.countP (fun c => exSol.ind 0 c) = 1 ∧
    (exSol.ind 0 0 = true ↔ exSol.cls 0 = 0) := by
  obtain ⟨h1, h2, h3⟩ :=
    C1_exactly_one_assignment exInput [0, 1] exSol exSolves (mkStudent 0)
      (by decide)
  exact ⟨h1, h2, h3 0 (by decide)⟩

/-- C2: in every returned solution, the number of students assigned to
each classroom equals that classroom's configured size from
`CLASS_SIZES` exactly. -/
theorem C2_capacity_exact (students : List Student) (large : List Nat)
    (sol : Sol) (h : solves students large sol = true) (c : Nat)
    (hc : c ∈ classIds) :
    clsCount sol (studentIds students) c = classSizes large c := by
  have hh := solves_holds h (capacity_mem students large hc)
  simp only [holds, beq_iff_eq] at hh
  rw [← indCount_eq_clsCount h (fun s hs => hs) hc]
  exact hh

/-- Witness for C2: class 0 of the concrete solution holds exactly its
configured 34 students. -/
theorem C2_witness :
    clsCount exSol (studentIds exInput) 0 = classSizes [0, 1] 0 :=
  C2_capacity_exact exInput [0, 1] exSol exSolves 0 (by decide)

/-- C4: for every student whose `bad_relation` is non-blank and resolves
to a known student id, the two students' classroom assignments differ in
every returned solution. -/
theorem C4_incompatible_separated (students : List Student)
    (large : List Nat) (sol : Sol) (h : solves students large sol = true)
    (st : Student) (hst : st ∈ students)
    (hbad : relVal st.badRelationRaw ≠ -1)
    (hres : relVal st.badRelationRaw ∈ studentIds students) :
    sol.cls st.id ≠ sol.cls (relVal st.badRelationRaw) := by
  have hh := solves_holds h (bad_mem large hst hbad hres)
  simp only [holds] at hh
  exact bne_iff_ne.mp hh

/-- Witness for C4: student 0 dislikes student 34 and they land in
different classes of the concrete solution. -/
theorem C4_witness :
    exSol.cls (mkStudent 0).id ≠
      exSol.cls (relVal (mkStudent 0).badRelationRaw) :=
  C4_incompatible_separated exInput [0, 1] exSol exSolves (mkStudent 0)
    (by decide) (by decide) (by decide)

/-- Amended C3: only a truant student's resolving `good_relation` yields
an equality constraint; in every returned solution such a truant student
shares a classroom with the referenced friend. -/
theorem C3_truant_good_pair_together (students : List Student)
    (large : List Nat) (sol : Sol) (h : solves students large sol = true)
    (st : Student) (hst : st ∈ students)
    (htru : flagVal st.isTruantRaw = 1)
    (hgood : relVal st.goodRelationRaw ≠ -1)
    (hres : relVal st.goodRelationRaw ∈ studentIds students) :
    sol.cls st.id = sol.cls (relVal st.goodRelationRaw) := by
  have hh := solves_holds h (good_mem large hst htru hgood hres)
  simp only [holds, beq_iff_eq] at hh
  exact hh

/-- Witness for the amended C3: truant student 1 is placed with the
friend named by its `good_relation`. -/
theorem C3_witness :
    exSol.cls (mkStudent 1).id =
      exSol.cls (relVal (mkStudent 1).goodRelationRaw) :=
  C3_truant_good_pair_together exInput [0, 1] exSol exSolves (mkStudent 1)
    (by decide) (by decide) (by decide) (by decide)

/-- Counterexample to C3 as stated: student 2 is not truant, its
`good_relation` resolves to the known student id 35, yet the concrete
valuation `exSol` satisfies every posted constraint while placing the
two students in different classrooms — so the model does not constrain
every resolving `good_relation` pair to be equal. -/
theorem C3_counterexample :
    solves exInput [0, 1] exSol = true ∧
    mkStudent 2 ∈ exInput ∧
    flagVal (mkStudent 2).isTruantRaw = 0 ∧
    relVal (mkStudent 2).goodRelationRaw = 35 ∧
    (35 : Int) ∈ studentIds exInput ∧
    exSol.cls (mkStudent 2).id ≠ exSol.cls (relVal (mkStudent 2).goodRelationRaw) :=
  ⟨exSolves, by decide, by decide, by decide, by decide, by decide⟩

/-- Ids of filtered dataframe rows are ids of the dataframe. -/
theorem filter_map_id_subset (students : List Student) (p : Student → Bool) :
    ∀ s ∈ (students.filter p).map (fun st => st.id),
      s ∈ studentIds students := by
  intro s hs
  obtain ⟨st, hst, rfl⟩ := List.mem_map.mp hs
  exact List.mem_map_of_mem _ (List.mem_filter.mp hst).1

/-- C6: in every returned solution, each classroom's count of students
with a balanced feature lies in `[floor(total/K), ceil(total/K)]` for
piano, truancy, athletics, gender (boys) and each club, while
leadership uses the explicit override bounds (at least 1, at most 5)
and each prior-year class uses an upper bound of 7 only. -/
theorem C6_feature_balance (students : List Student) (large : List Nat)
    (sol : Sol) (h : solves students large sol = true) (c : Nat)
    (hc : c ∈ classIds) :
    (1 ≤ clsCount sol (leaderIds students) c ∧
      clsCount sol (leaderIds students) c ≤ maxLeadersPerClass) ∧
    ((featureIds students (·.playsPianoRaw)).length / numClasses ≤
        clsCount sol (featureIds students (·.playsPianoRaw)) c ∧
      clsCount sol (featureIds students (·.playsPianoRaw)) c ≤
        ceilDiv (featureIds students (·.playsPianoRaw)).length numClasses) ∧
    ((featureIds students (·.isTruantRaw)).length / numClasses ≤
        clsCount sol (featureIds students (·.isTruantRaw)) c ∧
      clsCount sol (featureIds students (·.isTruantRaw)) c ≤
        ceilDiv (featureIds students (·.isTruantRaw)).length numClasses) ∧
    ((featureIds students (·.isAthleticRaw)).length / numClasses ≤
        clsCount sol (featureIds students (·.isAthleticRaw)) c ∧
      clsCount sol (featureIds students (·.isAthleticRaw)) c ≤
        ceilDiv (featureIds students (·.isAthleticRaw)).length numClasses) ∧
    ((maleIds students).length / numClasses ≤
        clsCount sol (maleIds students) c ∧
      clsCount sol (maleIds students) c ≤
        ceilDiv (maleIds students).length numClasses) ∧
    (∀ v ∈ uniqueVals (students.map (·.club)),
      ((students.filter (fun st => st.club = some v)).map (fun st => st.id)).length /
          numClasses ≤
        clsCount sol
          ((students.filter (fun st => st.club = some v)).map (fun st => st.id)) c ∧
      clsCount sol
          ((students.filter (fun st => st.club = some v)).map (fun st => st.id)) c ≤
        ceilDiv
          ((students.filter (fun st => st.club = some v)).map (fun st => st.id)).length
          numClasses) ∧
    (∀ v ∈ uniqueVals (students.map (·.lastYearClass)),
      clsCount sol
        ((students.filter (fun st => st.lastYearClass = some v)).map (fun st => st.id))
        c ≤ maxOverlap) := by
  refine ⟨?_, ?_, ?_, ?_, ?_, ?_, ?_⟩
  · have h1 := solves_holds h (leaderGe_mem students large hc)
    have h2 := solves_holds h (leaderLe_mem students large hc)
    simp only [holds, decide_eq_true_eq] at h1 h2
    rw [← indCount_eq_clsCount h
      (show ∀ s ∈ leaderIds students, s ∈ studentIds students from
        filter_map_id_subset students _) hc]
    exact ⟨h1, h2⟩
  · have hh := solves_holds h (piano_mem students large hc)
    simp only [holds, Bool.and_eq_true, decide_eq_true_eq] at hh
    rwa [← indCount_eq_clsCount h
      (show ∀ x ∈ featureIds students (fun st => st.playsPianoRaw), x ∈ studentIds students from
        filter_map_id_subset students _) hc]
  · have hh := solves_holds h (truant_mem students large hc)
    simp only [holds, Bool.and_eq_true, decide_eq_true_eq] at hh
    rwa [← indCount_eq_clsCount h
      (show ∀ x ∈ featureIds students (fun st => st.isTruantRaw), x ∈ studentIds students from
        filter_map_id_subset students _) hc]
  · have hh := solves_holds h (athletic_mem students large hc)
    simp only [holds, Bool.and_eq_true, decide_eq_true_eq] at hh
    rwa [← indCount_eq_clsCount h
      (show ∀ x ∈ featureIds students (fun st => st.isAthleticRaw), x ∈ studentIds students from
        filter_map_id_subset students _) hc]
  · have hh := solves_holds h (male_mem students large hc)
    simp only [holds, Bool.and_eq_true, decide_eq_true_eq] at hh
    rwa [← indCount_eq_clsCount h
      (show ∀ x ∈ maleIds students, x ∈ studentIds students from
        filter_map_id_subset students _) hc]
  · intro v hv
    have hh := solves_holds h (club_mem students large hv hc)
    simp only [holds, Bool.and_eq_true, decide_eq_true_eq] at hh
    rwa [← indCount_eq_clsCount h
      (show ∀ x ∈ (students.filter (fun st => st.club = some v)).map (fun st => st.id), x ∈ studentIds students from
        filter_map_id_subset students _) hc]
  · intro v hv
    have hh := solves_holds h (lastYear_mem students large hv hc)
    simp only [holds, decide_eq_true_eq] at hh
    rwa [← indCount_eq_clsCount h
      (show ∀ x ∈ (students.filter (fun st => st.lastYearClass = some v)).map (fun st => st.id), x ∈ studentIds students from
        filter_map_id_subset students _) hc]

/-- Witness for C6 at the concrete instance: class 0 has its one leader
within bounds and its boy count within the floor/ceil band. -/
theorem C6_witness :
    (1 ≤ clsCount exSol (leaderIds exInput) 0 ∧
      clsCount exSol (leaderIds exInput) 0 ≤ maxLeadersPerClass) ∧
    ((maleIds exInput).length / numClasses ≤
        clsCount exSol (maleIds exInput) 0 ∧
      clsCount exSol (maleIds exInput) 0 ≤
        ceilDiv (maleIds exInput).length numClasses) := by
  obtain ⟨h1, _, _, _, h5, _, _⟩ :=
    C6_feature_balance exInput [0, 1] exSol exSolves 0 (by decide)
  exact ⟨h1, h5⟩

/-- Whatever two distinct classes the ambient draw picks, the six class
sizes are a permutation of `34, 34, 33, 33, 33, 33`. -/
theorem sizes_perm (large : List Nat) (hv : validPair large) :
    (classIds.map (classSizes large)).Perm [34, 34, 33, 33, 33, 33] := by
  obtain ⟨hlen, hnd, hlt⟩ := hv
  obtain ⟨a, b, rfl⟩ := List.length_eq_two.mp hlen
  have hab : a ≠ b := by simpa using hnd
  have ha : a < 6 := hlt a (by simp)
  have hb : b < 6 := hlt b (by simp)
  interval_cases a <;> interval_cases b <;>
    first
      | exact absurd rfl hab
      | decide

/-- The configured capacities always sum to 200. -/
theorem sizes_sum (large : List Nat) (hv : validPair large) :
    (classIds.map (classSizes large)).sum = 200 := by
  rw [(sizes_perm large hv).sum_eq]
  decide

theorem sum_map_addf {α : Type} (l : List α) (f g : α → Nat) :
    (l.map fun a => f a + g a).sum = (l.map f).sum + (l.map g).sum := by
  induction l with
  | nil => rfl
  | cons a t ih => simp [ih]; omega

theorem sum_ite_eq_countP {α : Type} (l : List α) (p : α → Bool) :
    (l.map fun a => if p a then 1 else 0).sum = l.countP p := by
  induction l with
  | nil => rfl
  | cons a t ih => by_cases hp : p a <;> simp [List.countP_cons, hp, ih] <;> omega

/-- Column sums of the indicator matrix equal the number of rows when
every row has exactly one set indicator. -/
theorem sum_counts (sol : Sol) (ids : List Int)
    (h1 : ∀ s ∈ ids, classIds.countP (fun c => sol.ind s c) = 1) :
    (classIds.map (fun c => indCount sol ids c)).sum = ids.length := by
  induction ids with
  | nil => simp [indCount]
  | cons s t ih =>
      have hs1 := h1 s (List.mem_cons_self s t)
      have ih2 := ih (fun x hx => h1 x (List.mem_cons_of_mem _ hx))
      have hstep : ∀ c, indCount sol (s :: t) c =
          indCount sol t c + (if sol.ind s c then 1 else 0) :=
        fun c => List.countP_cons _ _ _
      calc (classIds.map fun c => indCount sol (s :: t) c).sum
          = (classIds.map fun c =>
              indCount sol t c + (if sol.ind s c then 1 else 0)).sum := by
            simp only [hstep]
        _ = (classIds.map fun c => indCount sol t c).sum +
              (classIds.map fun c => if sol.ind s c then 1 else 0).sum :=
            sum_map_addf classIds _ _
        _ = t.length + 1 := by rw [ih2, sum_ite_eq_countP, hs1]
        _ = (s :: t).length := by simp

/-- Any returned solution forces the population to be exactly 200: the
capacity equalities pin each column sum and the exactly-one constraints
pin each row sum of the indicator matrix. -/
theorem solves_length {students : List Student} {large : List Nat}
    {sol : Sol} (hv : validPair large)
    (h : solves students large sol = true) : students.length = 200 := by
  have hcap : ∀ c ∈ classIds,
      indCount sol (studentIds students) c = classSizes large c := by
    intro c hc
    have hh := solves_holds h (capacity_mem students large hc)
    simpa [holds] using hh
  have hmap : classIds.map (fun c => indCount sol (studentIds students) c) =
      classIds.map (classSizes large) := List.map_congr_left hcap
  have hsum := sum_counts sol (studentIds students)
    (fun s hs => exactlyOne_count h hs)
  rw [hmap, sizes_sum large hv] at hsum
  simpa [studentIds] using hsum.symm

/-- C10: with any valid ambient draw the model fixes the six class
sizes to exactly `34, 34, 33, 33, 33, 33`, every returned solution has
exactly 200 students, and for any input whose student count is not 200
no valuation satisfies the model. -/
theorem C10_population_forced (large : List Nat) (hv : validPair large) :
    (classIds.map (classSizes large)).Perm [34, 34, 33, 33, 33, 33] ∧
    (∀ students sol, solves students large sol = true →
      students.length = 200) ∧
    (∀ (students : List Student) (sol : Sol), students.length ≠ 200 →
      solves students large sol = false) := by
  refine ⟨sizes_perm large hv,
    fun students sol h => solves_length hv h,
    fun students sol hne => ?_⟩
  cases hsb : solves students large sol with
  | false => rfl
  | true => exact absurd (solves_length hv hsb) hne

/-- Witness for C10: the draw `[0, 1]` is valid, its sizes are the
stated multiset, and the satisfiable concrete input has 200 students. -/
theorem C10_witness :
    (classIds.map (classSizes [0, 1])).Perm [34, 34, 33, 33, 33, 33] ∧
    exInput.length = 200 :=
  ⟨(C10_population_forced [0, 1] (by decide)).1,
    (C10_population_forced [0, 1] (by decide)).2.1 exInput exSol exSolves⟩

/-- Counterexample to C9 as stated: the configured capacities sum to
200, the input has 3 students, and the builder still constructs a
(nonempty) constraint model — no `CapacityMismatchError` or any other
pre-build rejection exists in the code. -/
theorem C9_counterexample :
    (classIds.map (classSizes [0, 1])).sum = 200 ∧
    exInput9.length ≠ 200 ∧
    buildConstraints exInput9 [0, 1] ≠ [] := by
  refine ⟨by decide, by decide, ?_⟩
  intro hempty
  have hmem : Constr.capacityEq (studentIds exInput9) 0
      (classSizes [0, 1] 0) ∈ buildConstraints exInput9 [0, 1] :=
    capacity_mem exInput9 [0, 1] (by decide)
  rw [hempty] at hmem
  exact absurd hmem (List.not_mem_nil _)

/-- Amended C9: no capacity-sum check exists; on a mismatched input the
model is still constructed (it is nonempty) and solving proceeds, where
the mismatch surfaces only as unsatisfiability — the solver finds no
solution, after, not before, model construction. -/
theorem C9_mismatch_builds_then_unsat (students : List Student)
    (large : List Nat) (hv : validPair large)
    (hmismatch : students.length ≠ 200) :
    buildConstraints students large ≠ [] ∧
    ∀ sol, solves students large sol = false := by
  constructor
  · intro hempty
    have hmem : Constr.capacityEq (studentIds students) 0
        (classSizes large 0) ∈ buildConstraints students large :=
      capacity_mem students large (by decide)
    rw [hempty] at hmem
    exact absurd hmem (List.not_mem_nil _)
  · intro sol
    cases hsb : solves students large sol with
    | false => rfl
    | true => exact absurd (solves_length hv hsb) hmismatch

/-- Witness for the amended C9 at the three-student input. -/
theorem C9_witness :
    buildConstraints exInput9 [0, 1] ≠ [] ∧
    solves exInput9 [0, 1] exSol = false :=
  ⟨(C9_mismatch_builds_then_unsat exInput9 [0, 1] (by decide) (by decide)).1,
    (C9_mismatch_builds_then_unsat exInput9 [0, 1] (by decide) (by decide)).2
      exSol⟩

/-- The posted weighted indicator sum equals the assignment-read score
sum in any returned solution. -/
theorem weightedSum_eq_clsScoreSum {students : List Student}
    {large : List Nat} {sol : Sol} (h : solves students large sol = true)
    {c : Nat} (hc : c ∈ classIds) :
    weightedSum sol (scoreWeights students) c = clsScoreSum students sol c := by
  rw [weightedSum, scoreWeights, List.map_map, clsScoreSum]
  congr 1
  apply List.map_congr_left
  intro s hs
  simp only [Function.comp_apply]
  rw [ind_eq_clsBeq h hs hc]

/-- Amended C5 for `solve_or_tools.py`: per-class score sums satisfy the
posted truncated-integer bounds `int(ideal·0.95)` and `int(ideal·1.05)`;
hence each sum is at most `ideal × 1.05`, and is greater than
`ideal × 0.95 − 1` (it may fall below `ideal × 0.95` itself by less than
one point, because the lower bound is truncated). -/
theorem C5_score_bounds (students : List Student) (large : List Nat)
    (sol : Sol) (h : solves students large sol = true)
    (htot : 0 ≤ totalScore students) (c : Nat) (hc : c ∈ classIds) :
    scoreLo students ≤ clsScoreSum students sol c ∧
    clsScoreSum students sol c ≤ scoreHi students ∧
    avgScorePerClass students * (95 / 100) - 1 <
      (clsScoreSum students sol c : ℚ) ∧
    (clsScoreSum students sol c : ℚ) ≤
      avgScorePerClass students * (105 / 100) := by
  have hh := solves_holds h (score_mem students large hc)
  simp only [holds, Bool.and_eq_true, decide_eq_true_eq] at hh
  rw [weightedSum_eq_clsScoreSum h hc] at hh
  have havg : 0 ≤ avgScorePerClass students := by
    rw [avgScorePerClass]
    apply div_nonneg
    · exact_mod_cast htot
    · norm_num
  have hloQ : avgScorePerClass students - scoreTolerance students =
      avgScorePerClass students * (95 / 100) := by
    rw [scoreTolerance]; ring
  have hhiQ : avgScorePerClass students + scoreTolerance students =
      avgScorePerClass students * (105 / 100) := by
    rw [scoreTolerance]; ring
  have hlo0 : (0 : ℚ) ≤ avgScorePerClass students * (95 / 100) :=
    mul_nonneg havg (by norm_num)
  have hhi0 : (0 : ℚ) ≤ avgScorePerClass students * (105 / 100) :=
    mul_nonneg havg (by norm_num)
  have hloEq : scoreLo students = ⌊avgScorePerClass students * (95 / 100)⌋ := by
    rw [scoreLo, hloQ, pyInt, if_pos hlo0]
  have hhiEq : scoreHi students = ⌊avgScorePerClass students * (105 / 100)⌋ := by
    rw [scoreHi, hhiQ, pyInt, if_pos hhi0]
  refine ⟨hh.1, hh.2, ?_, ?_⟩
  · have h1 : (scoreLo students : ℚ) ≤ (clsScoreSum students sol c : ℚ) := by
      exact_mod_cast hh.1
    have h2 : avgScorePerClass students * (95 / 100) - 1 <
        ((⌊avgScorePerClass students * (95 / 100)⌋ : ℤ) : ℚ) :=
      Int.sub_one_lt_floor _
    rw [hloEq] at h1
    linarith
  · have h1 : (clsScoreSum students sol c : ℚ) ≤ (scoreHi students : ℚ) := by
      exact_mod_cast hh.2
    have h2 : ((⌊avgScorePerClass students * (105 / 100)⌋ : ℤ) : ℚ) ≤
        avgScorePerClass students * (105 / 100) :=
      Int.floor_le _
    rw [hhiEq] at h1
    linarith

/-- Witness for the amended C5 at the concrete instance, class 0. -/
theorem C5_witness :
    scoreLo exInput ≤ clsScoreSum exInput exSol 0 ∧
    clsScoreSum exInput exSol 0 ≤ scoreHi exInput ∧
    avgScorePerClass exInput * (95 / 100) - 1 <
      (clsScoreSum exInput exSol 0 : ℚ) ∧
    (clsScoreSum exInput exSol 0 : ℚ) ≤
      avgScorePerClass exInput * (105 / 100) :=
  C5_score_bounds exInput [0, 1] exSol exSolves (by decide) 0 (by decide)

/-- Counterexample to C7 as stated: with identical input data and an
identical (empty) configuration — the function takes only the CSV path,
and no seed parameter exists — two runs whose ambient
`random.sample(CLASS_IDS, 2)` draws differ produce different constraint
models: the capacity constraints disagree. -/
theorem C7_counterexample :
    buildConstraints exInput9 [0, 1] ≠ buildConstraints exInput9 [2, 3] := by
  decide

/-- Amended C7: the model is a deterministic function of the input data
and the ambient capacity-overflow draw, and the draw influences only the
capacity constraints — every non-capacity constraint is identical across
runs on the same input regardless of the draw (and with the same draw
the whole model is identical, the builder being a pure function of the
two). -/
theorem C7_deterministic_except_capacity (students : List Student)
    (p1 p2 : List Nat) :
    (buildConstraints students p1).filter (fun con => !isCapacityC con) =
      (buildConstraints students p2).filter (fun con => !isCapacityC con) := by
  have hcap : ∀ (ids : List Int) (p : List Nat),
      (capacitySection ids p).filter (fun con => !isCapacityC con) = [] :=
    fun ids p => rfl
  rw [buildConstraints, buildConstraints]
  simp only [List.filter_append]
  rw [hcap, hcap]

end Classroom

namespace MainProg

/-- Counterexample to C5 as stated: `exMainCls` satisfies every posted
constraint of the `main.py` model (it is a returned solution), yet the
score sum of classroom 0 (150) lies strictly below
`ideal × (1 − tolerance)` with the configured tolerance 0.15 — the
score-balance constraint is defined in the source but never posted. -/
theorem C5_counterexample :
    mainSolves exMain exMainCls = true ∧
    (classScoreSum exMain exMainCls 0 : ℚ) <
      idealClassroomScoreSum exMain * (1 - scoreTolerancePercent) := by
  constructor
  · decide
  · have h1 : classScoreSum exMain exMainCls 0 = 150 := by decide
    have h2 : totalScoreMain exMain = 4850 := by decide
    rw [h1, idealClassroomScoreSum, h2, scoreTolerancePercent, numClassrooms]
    norm_num

/-- Counterexample to C8 as stated: a valuation that violates a posted
hard constraint of the model (all 50 students in classroom 0 breaks the
3..7 count range) passes the post-solve re-check with no warnings at
all — the count constraint is never re-checked, and nothing is raised.
(`solve_or_tools.py` performs no post-solve re-check whatsoever.) -/
theorem C8_counterexample :
    dislikeWarnings exD8 exCls8 = [] ∧
    prefWarnings exD8 exCls8 = [] ∧
    mainSolves exD8 exCls8 = false := by
  refine ⟨by decide, by decide, by decide⟩

theorem mem_allPairs_mem {α : Type} {x y : α} :
    ∀ {l : List α}, (x, y) ∈ allPairs l → x ∈ l ∧ y ∈ l := by
  intro l
  induction l with
  | nil => intro hmem; cases hmem
  | cons a t ih =>
      intro hmem
      rcases List.mem_append.mp hmem with hl | hr
      · obtain ⟨b, hb, heq⟩ := List.mem_map.mp hl
        cases heq
        exact ⟨List.mem_cons_self _ _, List.mem_cons_of_mem _ hb⟩
      · exact ⟨List.mem_cons_of_mem _ (ih hr).1,
          List.mem_cons_of_mem _ (ih hr).2⟩

theorem pair_mem_allPairs {α : Type} {x y : α} {l : List α} (hx : x ∈ l)
    (hy : y ∈ l) (hxy : x ≠ y) :
    (x, y) ∈ allPairs l ∨ (y, x) ∈ allPairs l := by
  induction l with
  | nil => cases hx
  | cons a t ih =>
      rcases List.mem_cons.mp hx with rfl | hx2
      · have hy2 : y ∈ t := by
          rcases List.mem_cons.mp hy with rfl | h
          · exact absurd rfl hxy
          · exact h
        left
        exact List.mem_append_left _ (List.mem_map_of_mem _ hy2)
      · rcases List.mem_cons.mp hy with rfl | hy2
        · right
          exact List.mem_append_left _ (List.mem_map_of_mem _ hx2)
        · rcases ih hx2 hy2 with h | h
          · left
            exact List.mem_append_right _ h
          · right
            exact List.mem_append_right _ h

theorem mem_studentsInClass {cls : Nat → Nat} {c s : Nat} :
    s ∈ studentsInClass cls c ↔ s < numStudents ∧ cls s = c := by
  simp [studentsInClass, List.mem_filter, List.mem_range]

/-- Amended C8: the post-solve re-check of `main.py` covers exactly the
dislike-separation and subject-preference constraints, and its outcome
is a list of printed warnings, not a raised error: for well-formed
dislike data and an in-domain valuation, the dislike warnings are empty
iff every disliked pair is separated, and the preference warnings are
empty iff every student sits in the classroom teaching their preferred
subject.  No other constraint (in particular the posted per-class count
range) is re-checked. -/
theorem C8_recheck_scope (d : MainData) (cls : Nat → Nat)
    (hd : ∀ p ∈ d.dislikes,
      p.1 ≠ p.2 ∧ p.1 < numStudents ∧ p.2 < numStudents)
    (hcls : ∀ s, s < numStudents → cls s < numClassrooms) :
    (dislikeWarnings d cls = [] ↔ ∀ p ∈ d.dislikes, cls p.1 ≠ cls p.2) ∧
    (prefWarnings d cls = [] ↔
      ∀ s, s < numStudents → classroomTeacherSubject (cls s) = d.prefs s) := by
  constructor
  · constructor
    · intro hempty p hp heq
      obtain ⟨x, y⟩ := p
      obtain ⟨hxy, hxlt, hylt⟩ := hd (x, y) hp
      have hxc : x ∈ studentsInClass cls (cls x) :=
        mem_studentsInClass.mpr ⟨hxlt, rfl⟩
      have hyc : y ∈ studentsInClass cls (cls x) :=
        mem_studentsInClass.mpr ⟨hylt, heq.symm⟩
      have hclt : cls x < numClassrooms := hcls x hxlt
      have hcand : ∀ q ∈ allPairs (studentsInClass cls (cls x)),
          (q ∈ d.dislikes ∨ (q.2, q.1) ∈ d.dislikes) →
          (cls x, q.1, q.2) ∈ dislikeWarnings d cls := by
        intro q hq hcond
        rw [dislikeWarnings]
        refine List.mem_flatMap.mpr ⟨cls x, List.mem_range.mpr hclt, ?_⟩
        exact List.mem_filterMap.mpr ⟨q, hq, by rw [if_pos hcond]⟩
      rcases pair_mem_allPairs hxc hyc hxy with h | h
      · have := hcand (x, y) h (Or.inl hp)
        rw [hempty] at this
        exact absurd this (List.not_mem_nil _)
      · have := hcand (y, x) h (Or.inr hp)
        rw [hempty] at this
        exact absurd this (List.not_mem_nil _)
    · intro hsep
      rw [List.eq_nil_iff_forall_not_mem]
      intro w hw
      rw [dislikeWarnings] at hw
      obtain ⟨c, hc, hw2⟩ := List.mem_flatMap.mp hw
      obtain ⟨q, hq, heq⟩ := List.mem_filterMap.mp hw2
      obtain ⟨x, y⟩ := q
      by_cases hcond : (x, y) ∈ d.dislikes ∨ (y, x) ∈ d.dislikes
      · obtain ⟨hxc, hyc⟩ := mem_allPairs_mem hq
        have hcx : cls x = c := (mem_studentsInClass.mp hxc).2
        have hcy : cls y = c := (mem_studentsInClass.mp hyc).2
        rcases hcond with hmem | hmem
        · exact hsep (x, y) hmem (hcx.trans hcy.symm)
        · exact hsep (y, x) hmem (hcy.trans hcx.symm)
      · rw [if_neg hcond] at heq
        cases heq
  · constructor
    · intro hempty s hs
      by_contra hne
      have hsc : s ∈ studentsInClass cls (cls s) :=
        mem_studentsInClass.mpr ⟨hs, rfl⟩
      have hmem : (cls s, s) ∈ prefWarnings d cls := by
        rw [prefWarnings]
        refine List.mem_flatMap.mpr
          ⟨cls s, List.mem_range.mpr (hcls s hs), ?_⟩
        exact List.mem_filterMap.mpr ⟨s, hsc, by rw [if_pos hne]⟩
      rw [hempty] at hmem
      exact absurd hmem (List.not_mem_nil _)
    · intro hmatch
      rw [List.eq_nil_iff_forall_not_mem]
      intro w hw
      rw [prefWarnings] at hw
      obtain ⟨c, hc, hw2⟩ := List.mem_flatMap.mp hw
      obtain ⟨s, hsc, heq⟩ := List.mem_filterMap.mp hw2
      obtain ⟨hs, hcs⟩ := mem_studentsInClass.mp hsc
      by_cases hcond : classroomTeacherSubject c ≠ d.prefs s
      · exact hcond (hcs ▸ hmatch s hs)
      · rw [if_neg hcond] at heq
        cases heq

/-- Witness for the amended C8: on the round-robin assignment both
re-checks come back clean, via both reverse directions of the
characterization. -/
theorem C8_witness :
    dislikeWarnings exD8b exCls8b = [] ∧ prefWarnings exD8b exCls8b = [] := by
  have h := C8_recheck_scope exD8b exCls8b (by decide)
    (fun s _ => Nat.mod_lt s (by norm_num))
  exact ⟨h.1.mpr (by decide), h.2.mpr (fun s _ => rfl)⟩

end MainProg
